import Mathlib

/-!
Verification of the database layer in `src/packages/database/src/Database.ts`
(effect-based connection-lifecycle and transaction-coordination layer over a
node-postgres pool accessed through drizzle).

Shallow embedding conventions:

* Thrown JavaScript values are modelled by `JsValue`: either a
  `pg.DatabaseError` (carrying a SQLSTATE code and a message) or any other
  error-like value (carrying a message).
* A settled JavaScript promise is modelled by `POutcome`: resolved with a
  value or rejected with a thrown `JsValue`.
* An effect `Cause` is modelled by `Cause`: a typed failure (`Cause.fail`)
  or a defect (`Cause.die`).  Interruption is outside the scope of the
  claims treated here and is not modelled.
* The driver primitive `db.transaction` (drizzle over node-postgres) is an
  external collaborator; its contract is taken from the specification:
  it runs the callback after BEGIN, commits when the callback promise
  resolves, rolls back and rethrows when it rejects, and the promise it
  returns rejects when the primitive itself fails (at BEGIN or COMMIT time).
* `Effect.async` completes with the value of the first `resume` call;
  later `resume` calls are ignored.  Resume sequences are therefore
  modelled as lists, the effect result being the head.
-/

/-- A thrown JavaScript value as far as this layer can observe it: either a
`pg.DatabaseError` with its SQLSTATE `code` and `message`, or some other
error value with a `message`. -/
inductive JsValue : Type where
  | pgError (code : String) (msg : String)
  | jsError (msg : String)
deriving DecidableEq

/-- The `message` property of a thrown value. -/
def errMessage : JsValue → String
  | .pgError _ m => m
  | .jsError m => m

/-- The three recognized domain error kinds of `DatabaseError.type`. -/
inductive ErrorType : Type where
  | unique_violation
  | foreign_key_violation
  | connection_error
deriving DecidableEq

/-- The tagged error `DatabaseError` of `Database.ts`: a recognized kind
together with the original driver error as `cause`. -/
structure DatabaseError : Type where
  type : ErrorType
  cause : JsValue
deriving DecidableEq

/-- The `message` getter of `DatabaseError`: the message of its cause. -/
def DatabaseError.message (e : DatabaseError) : String :=
  errMessage e.cause

/-- The `toString` override of `DatabaseError`. -/
def DatabaseError.render (e : DatabaseError) : String :=
  "DatabaseError: " ++ errMessage e.cause

/-- `matchPgError` from `Database.ts`: classify a thrown value.  Only
`pg.DatabaseError` instances are inspected; the SQLSTATE codes 23505,
23503 and 08000 map to the three domain kinds, everything else to null
(`none`). -/
def matchPgError : JsValue → Option DatabaseError
  | .pgError code msg =>
    if code = "23505" then some ⟨.unique_violation, .pgError code msg⟩
    else if code = "23503" then some ⟨.foreign_key_violation, .pgError code msg⟩
    else if code = "08000" then some ⟨.connection_error, .pgError code msg⟩
    else none
  | .jsError _ => none

/-- The typed error `DatabaseConnectionLostError` of `Database.ts`. -/
structure DatabaseConnectionLostError : Type where
  cause : JsValue
  message : String
deriving DecidableEq

/-- Outcome of a settled JavaScript promise. -/
inductive POutcome (α : Type) : Type where
  | resolved (a : α)
  | rejected (v : JsValue)
deriving DecidableEq

/-- Result of running one effect to completion: success, a typed failure,
or a defect carrying the original thrown value. -/
inductive ExecResult (α : Type) : Type where
  | success (a : α)
  | failure (e : DatabaseError)
  | defect (v : JsValue)
deriving DecidableEq

/-- `execute` from `Database.ts`, as a function of the outcome of the
supplied operation: `Effect.tryPromise` succeeds with a resolved value;
on rejection the catch handler returns the classified `DatabaseError`
when `matchPgError` recognizes the thrown value and rethrows it
otherwise, and a rethrow from the catch handler becomes a defect. -/
def execute {α : Type} (op : POutcome α) : ExecResult α :=
  match op with
  | .resolved a => .success a
  | .rejected v =>
    match matchPgError v with
    | some e => .failure e
    | none => .defect v

/-- An effect cause as observed through `runPromiseExit`: a typed failure
or a defect.  Interruption is not modelled. -/
inductive Cause (ε : Type) : Type where
  | fail (e : ε)
  | die (v : JsValue)
deriving DecidableEq

/-- `Cause.isFailure`: whether the cause contains a typed failure. -/
def Cause.isFailure {ε : Type} : Cause ε → Bool
  | .fail _ => true
  | .die _ => false

/-- `Cause.originalError` from the effect library: it unproxies an error
object that was wrapped by the tracing machinery to carry span
annotations, and returns any other argument unchanged.  A `Cause` value
is never such a proxy, so applied to a whole cause, as `Database.ts`
does on line 161, it returns the cause itself. -/
def causeOriginalError {ε : Type} (c : Cause ε) : Cause ε := c

/-- Outcome of driving the body computation of a transaction to
completion with `runPromiseExit`: an exit that either succeeds or
carries a cause. -/
inductive BodyOutcome (ε τ : Type) : Type where
  | success (a : τ)
  | failCause (c : Cause ε)
deriving DecidableEq

/-- The values that can travel on the typed error channel of
`transaction`: a `DatabaseError` produced by the catch-classification
path, or the value passed to `Effect.fail` on the body failure path,
which is the whole cause returned by `causeOriginalError` (cast to the
body error type in the source). -/
inductive TxError (ε : Type) : Type where
  | domain (d : DatabaseError)
  | causeValue (c : Cause ε)
deriving DecidableEq

/-- The values that can travel on the defect channel of `transaction`:
the body cause passed to `Effect.die`, or a raw thrown value from the
driver primitive that `matchPgError` did not recognize. -/
inductive TxDefect (ε : Type) : Type where
  | causeDefect (c : Cause ε)
  | rawDefect (v : JsValue)
deriving DecidableEq

/-- Result of the outer `transaction` effect. -/
inductive TxResult (ε τ : Type) : Type where
  | success (a : τ)
  | failure (e : TxError ε)
  | defect (d : TxDefect ε)
deriving DecidableEq

/-- The `Exit.match` block inside the transaction callback
(`Database.ts` lines 155 to 166), as the value passed to `resume`:
on success, succeed with the value; on a cause containing a typed
failure, fail with `Cause.originalError` of the cause; otherwise die
with the cause. -/
def txCallbackResume {ε τ : Type} (be : BodyOutcome ε τ) : TxResult ε τ :=
  match be with
  | .success a => .success a
  | .failCause c =>
    if c.isFailure then .failure (.causeValue (causeOriginalError c))
    else .defect (.causeDefect c)

/-- The promise returned by the async callback passed to
`db.transaction` (lines 141 to 167).  Every path of the callback awaits
the body exit, calls `resume`, and returns; no path throws or rejects,
so the callback promise resolves whatever the body outcome was. -/
def txCallbackPromise {ε τ : Type} (_be : BodyOutcome ε τ) : POutcome Unit :=
  .resolved ()

/-- The `.catch` handler on the driver transaction promise (lines 167
to 170), as the value passed to `resume`: fail with the classified
`DatabaseError` when `matchPgError` recognizes the thrown value, die
with the original value otherwise. -/
def txCatchResume {ε τ : Type} (v : JsValue) : TxResult ε τ :=
  match matchPgError v with
  | some d => .failure (.domain d)
  | none => .defect (.rawDefect v)

/-- Behavior of the external driver transaction primitive for one run:
whether it rejects before running the callback (at BEGIN time) and
whether the commit attempt rejects. -/
structure DriverBehavior : Type where
  beginError : Option JsValue
  commitError : Option JsValue

/-- Fate of the underlying database transaction. -/
inductive TxFate : Type where
  | committed
  | rolledBack
  | commitFailed
  | notStarted
deriving DecidableEq

/-- The sequence of `resume` calls performed during one run of
`transaction`, in order.  If the primitive rejects at BEGIN time the
callback never runs and only the catch handler resumes.  Otherwise the
callback runs and resumes with the body-derived value; because its
promise resolves (`txCallbackPromise`), the driver proceeds to commit,
and a commit rejection reaches the catch handler after the callback
already resumed.  A rejected callback promise would make the driver
roll back and rethrow into the catch handler; this branch is
unreachable in the source. -/
def transactionResumes {ε τ : Type} (drv : DriverBehavior) (be : BodyOutcome ε τ) :
    List (TxResult ε τ) :=
  match drv.beginError with
  | some v => [txCatchResume v]
  | none =>
    match txCallbackPromise be with
    | .resolved _ =>
      match drv.commitError with
      | some v => [txCallbackResume be, txCatchResume v]
      | none => [txCallbackResume be]
    | .rejected v => [txCallbackResume be, txCatchResume v]

/-- Result of the outer `transaction` effect: `Effect.async` completes
with the first `resume` call, later calls being ignored. -/
def transactionResult {ε τ : Type} (drv : DriverBehavior) (be : BodyOutcome ε τ) :
    Option (TxResult ε τ) :=
  (transactionResumes drv be).head?

/-- Fate of the underlying transaction, per the driver contract stated
in the specification: after a successful BEGIN, the driver commits when
the callback promise resolves and rolls back when it rejects; a commit
attempt that rejects leaves the transaction uncommitted. -/
def transactionFate {ε τ : Type} (drv : DriverBehavior) (be : BodyOutcome ε τ) : TxFate :=
  match drv.beginError with
  | some _ => .notStarted
  | none =>
    match txCallbackPromise be with
    | .resolved _ =>
      match drv.commitError with
      | none => .committed
      | some _ => .commitFailed
    | .rejected _ => .rolledBack

/-- The warning logged by the retry schedule for one failed probe
attempt (`Database.ts` line 82); the interpolated number is the output
of the spaced schedule, which counts recurrences starting at zero. -/
def warningLog (attempt : Nat) : String :=
  "[Database client]: Connection to the database failed. Retrying (attempt "
    ++ toString attempt ++ ")."

/-- The info message logged on first probe success (line 88). -/
def establishedLog : String :=
  "[Database client]: Connection to the database established."

/-- The info message logged when the connection listeners start
(line 110). -/
def listenersLog : String :=
  "[Database client]: Connection error listeners initialized."

/-- The startup probe pipeline (`Database.ts` lines 77 to 91): the
liveness query is retried under an unbounded spaced schedule whose
`tapOutput` logs one warning per failed attempt carrying the schedule
output, one info message is logged on first success, and `orDie` leaves
no typed error channel.  The probe of the claims fails on every attempt
index below `threshold` and succeeds from `threshold` on; `fuel` bounds
the number of attempts observed, `none` meaning the pipeline is still
retrying and the service not yet ready.  The result carries the number
of attempts made, the warning outputs logged, and the number of success
info messages. -/
def startupRun (threshold : Nat) : Nat → Nat → List Nat → Option (Nat × List Nat × Nat)
  | 0, _, _ => none
  | fuel + 1, attemptIdx, warnings =>
    if threshold ≤ attemptIdx then some (attemptIdx + 1, warnings, 1)
    else startupRun threshold fuel (attemptIdx + 1) (warnings ++ [attemptIdx])

/-- `setupConnectionListeners` (`Database.ts` lines 93 to 114), as a
function of the first event emitted on the pool error channel.  The
`Effect.async` half resumes only from the pool error listener, failing
with a `DatabaseConnectionLostError` built from the event; the
concurrent `Effect.zipRight` half only logs, so the whole effect
completes exactly when such an event arrives (`none` = no event, never
completes). -/
def setupConnectionListeners (firstEvent : Option JsValue) :
    Option DatabaseConnectionLostError :=
  firstEvent.map (fun e => ⟨e, errMessage e⟩)

/-- `makeQuery` (`Database.ts` lines 176 to 190): given the ambient
execution capability `execute` closed over by the service and a query
definition, produce a callable taking the input and an optional
transaction capability; it invokes the definition with `tx ?? execute`
and the unchanged input. -/
def makeQuery {Cap Input Res : Type} (execute : Cap) (queryFn : Cap → Input → Res) :
    Input → Option Cap → Res :=
  fun input tx => queryFn (tx.getD execute) input

/-- A redacted secret as in `effect/Redacted`: `Redacted.value` is the
only way to read the wrapped string. -/
structure Redacted : Type where
  value : String
deriving DecidableEq

/-- The service configuration (`Database.ts` lines 57 to 60). -/
structure Config : Type where
  url : Redacted
  ssl : Bool

/-- The argument object handed to the pool constructor (lines 67 to 72);
the one place where the redacted url is unwrapped. -/
structure PoolConfig : Type where
  connectionString : String
  ssl : Bool
  idleTimeoutMillis : Nat
  connectionTimeoutMillis : Nat
deriving DecidableEq

/-- Pool construction from the configuration (lines 64 to 75). -/
def makePool (cfg : Config) : PoolConfig :=
  ⟨cfg.url.value, cfg.ssl, 0, 0⟩

/-- Observables of one service run: the pool configuration built from
the service configuration, every log message emitted in order for a
startup whose probe fails `probeFailures` times before succeeding, and
the connection-loss failure surfaced for the first pool error event,
if any. -/
structure ServiceRun : Type where
  pool : PoolConfig
  logs : List String
  connectionLoss : Option DatabaseConnectionLostError

/-- One run of `makeService` (`Database.ts` lines 62 to 198) reduced to
its observables. -/
def runService (cfg : Config) (probeFailures : Nat) (poolEvent : Option JsValue) :
    ServiceRun :=
  { pool := makePool cfg
  , logs := ((List.range probeFailures).map warningLog) ++ [establishedLog, listenersLog]
  , connectionLoss := setupConnectionListeners poolEvent }

/-- The listeners registered for the "error" event on the shared pool
(an event-emitter channel; listeners are identified by a numeric id in
the model). -/
structure PoolListeners : Type where
  errorListeners : List Nat
deriving DecidableEq

/-- `pool.on("error", handler)` (line 95): appends one listener to the
error channel. -/
def addErrorListener (s : PoolListeners) (l : Nat) : PoolListeners :=
  ⟨s.errorListeners ++ [l]⟩

/-- The finalizer returned by the `Effect.async` block of
`setupConnectionListeners` (lines 106 to 108): it runs
`pool.removeAllListeners("error")`, clearing the whole error channel of
the pool. -/
def watcherFinalizer (_s : PoolListeners) : PoolListeners :=
  ⟨[]⟩

theorem matchPgError_cause (v : JsValue) (d : DatabaseError) :
    matchPgError v = some d → d.cause = v := by
  cases v with
  | pgError code msg =>
    simp only [matchPgError]
    split_ifs <;> intro h
    all_goals first
      | (cases h; rfl)
      | simp at h
  | jsError msg => intro h; simp [matchPgError] at h

/-- Claim C3: the error classifier maps a driver error with code 23505
to `unique_violation`, 23503 to `foreign_key_violation` and 08000 to
`connection_error`, and returns null both for driver errors with any
other code and for values that are not driver errors; it is a pure
function of its input. -/
theorem c3_matchPgError_classification (code msg : String) :
    matchPgError (.pgError "23505" msg) = some ⟨.unique_violation, .pgError "23505" msg⟩ ∧
    matchPgError (.pgError "23503" msg) = some ⟨.foreign_key_violation, .pgError "23503" msg⟩ ∧
    matchPgError (.pgError "08000" msg) = some ⟨.connection_error, .pgError "08000" msg⟩ ∧
    (code ≠ "23505" → code ≠ "23503" → code ≠ "08000" →
      matchPgError (.pgError code msg) = none) ∧
    matchPgError (.jsError msg) = none := by
  refine ⟨by simp [matchPgError], by simp [matchPgError], by simp [matchPgError], ?_, rfl⟩
  intro h1 h2 h3
  simp [matchPgError, h1, h2, h3]

theorem c3_matchPgError_witness :
    matchPgError (.pgError "99999" "x") = none :=
  (c3_matchPgError_classification "99999" "x").2.2.2.1 (by decide) (by decide) (by decide)

/-- Claim C4: `execute` succeeds with the result of a resolved
operation, fails with the classified `DatabaseError` when the operation
throws a recognized value, and propagates an unrecognized thrown value
as a defect carrying that original value, never as a typed failure. -/
theorem c4_execute_classification {α : Type} (a : α) (v : JsValue) :
    execute (POutcome.resolved a) = ExecResult.success a ∧
    (∀ d : DatabaseError, matchPgError v = some d →
      execute (POutcome.rejected v : POutcome α) = ExecResult.failure d) ∧
    (matchPgError v = none →
      execute (POutcome.rejected v : POutcome α) = ExecResult.defect v) := by
  refine ⟨rfl, ?_, ?_⟩
  · intro d h; simp [execute, h]
  · intro h; simp [execute, h]

theorem c4_execute_witness :
    execute (POutcome.rejected (JsValue.jsError "boom") : POutcome Nat)
      = ExecResult.defect (JsValue.jsError "boom") :=
  (c4_execute_classification (0 : Nat) (JsValue.jsError "boom")).2.2 rfl

/-- Claim C6: for every pool error event, `setupConnectionListeners`
fails with a `DatabaseConnectionLostError` whose cause is the injected
error and whose message is the message of that error, and in the
absence of any pool error event it never completes. -/
theorem c6_connection_loss_watcher (e : JsValue) :
    setupConnectionListeners (some e) = some ⟨e, errMessage e⟩ ∧
    setupConnectionListeners none = none :=
  ⟨rfl, rfl⟩

/-- Claim C7: a callable produced by `makeQuery` invokes the query
definition with the explicitly supplied transaction capability when one
is given and with the ambient `execute` capability when none is given,
passing the input through unchanged in both cases. -/
theorem c7_makeQuery_capability {Cap Input Res : Type} (execute : Cap)
    (queryFn : Cap → Input → Res) (input : Input) (txCap : Cap) :
    makeQuery execute queryFn input (some txCap) = queryFn txCap input ∧
    makeQuery execute queryFn input none = queryFn execute input :=
  ⟨rfl, rfl⟩

/-- Claim C10: the finalizer of the `setupConnectionListeners` task
clears every listener of the pool error channel, including listeners
that were registered before its own subscription. -/
theorem c10_finalizer_removes_all_error_listeners (s : PoolListeners) (w : Nat) :
    (watcherFinalizer (addErrorListener s w)).errorListeners = [] ∧
    ∀ l : Nat, l ∈ s.errorListeners →
      l ∉ (watcherFinalizer (addErrorListener s w)).errorListeners := by
  refine ⟨rfl, ?_⟩
  intro l _
  simp [watcherFinalizer]

theorem c10_finalizer_witness :
    (watcherFinalizer (addErrorListener ⟨[5]⟩ 9)).errorListeners = [] ∧
    (5 : Nat) ∉ (watcherFinalizer (addErrorListener ⟨[5]⟩ 9)).errorListeners :=
  ⟨(c10_finalizer_removes_all_error_listeners ⟨[5]⟩ 9).1,
   (c10_finalizer_removes_all_error_listeners ⟨[5]⟩ 9).2 5 (by decide)⟩

theorem startupRun_pending (T : Nat) :
    ∀ (fuel idx : Nat) (acc : List Nat), idx + fuel ≤ T →
      startupRun T fuel idx acc = none := by
  intro fuel
  induction fuel with
  | zero => intro idx acc _; rfl
  | succ n ih =>
    intro idx acc h
    have hlt : ¬ T ≤ idx := by omega
    simp only [startupRun, if_neg hlt]
    exact ih (idx + 1) (acc ++ [idx]) (by omega)

theorem startupRun_completes :
    ∀ (n idx : Nat) (acc : List Nat),
      startupRun (idx + n) (n + 1) idx acc
        = some (idx + n + 1, acc ++ List.range' idx n, 1) := by
  intro n
  induction n with
  | zero =>
    intro idx acc
    simp [startupRun]
  | succ m ih =>
    intro idx acc
    have hlt : ¬ idx + (m + 1) ≤ idx := by omega
    simp only [startupRun, if_neg hlt]
    have h1 : idx + (m + 1) = (idx + 1) + m := by omega
    rw [h1]
    have hih := ih (idx + 1) (acc ++ [idx])
    simp only [startupRun] at hih
    rw [hih]
    simp [List.range'_succ, List.append_assoc]

/-- Claim C5: for a probe that fails on its first N attempts and then
succeeds, the startup pipeline completes after exactly N plus one
attempts, logging one warning carrying the schedule attempt counter per
failed attempt and exactly one success info message, and with fewer
than N plus one attempts available it is still retrying rather than
failed, probe failures never being surfaced as a typed error. -/
theorem c5_startup_retrier (N : Nat) :
    startupRun N (N + 1) 0 [] = some (N + 1, List.range N, 1) ∧
    ∀ fuel : Nat, fuel < N + 1 → startupRun N fuel 0 [] = none := by
  constructor
  · have h := startupRun_completes N 0 []
    simpa [List.range_eq_range'] using h
  · intro fuel h
    exact startupRun_pending N fuel 0 [] (by omega)

theorem c5_startup_witness :
    startupRun 2 3 0 [] = some (3, List.range 2, 1) ∧
    startupRun 2 1 0 [] = none :=
  ⟨(c5_startup_retrier 2).1, (c5_startup_retrier 2).2 1 (by decide)⟩

/-- Claim C1, failing input: with a healthy driver and a body that
fails with a typed `DatabaseError`, the callback promise nevertheless
resolves and the driver commits the transaction, while the outer effect
fails; the callback promise is never rejected, so no rollback happens.
For contrast, the successful body also commits and resolves the outer
effect with the produced value, so the commit fate does not depend on
the body outcome at all. -/
theorem c1_transaction_commits_even_on_body_failure :
    txCallbackPromise
        (BodyOutcome.failCause
          (Cause.fail (⟨.unique_violation, .pgError "23505" "dup"⟩ : DatabaseError))
          : BodyOutcome DatabaseError Nat)
      = POutcome.resolved () ∧
    transactionFate ⟨none, none⟩
        (BodyOutcome.failCause
          (Cause.fail (⟨.unique_violation, .pgError "23505" "dup"⟩ : DatabaseError))
          : BodyOutcome DatabaseError Nat)
      = TxFate.committed ∧
    transactionFate ⟨none, none⟩ (BodyOutcome.success 7 : BodyOutcome DatabaseError Nat)
      = TxFate.committed ∧
    transactionResult ⟨none, none⟩ (BodyOutcome.success 7 : BodyOutcome DatabaseError Nat)
      = some (TxResult.success 7) :=
  ⟨rfl, rfl, rfl, rfl⟩

/-- Claim C2, failing input: when the body fails with the typed error
value e, the value delivered on the typed error channel of
`transaction` is the whole cause wrapping e (the value that
`Cause.originalError` returns for a cause argument), not the value e
itself and not a classified `DatabaseError`. -/
theorem c2_transaction_delivers_cause_wrapper :
    transactionResult ⟨none, none⟩
        (BodyOutcome.failCause
          (Cause.fail (⟨.unique_violation, .pgError "23505" "dup"⟩ : DatabaseError))
          : BodyOutcome DatabaseError Nat)
      = some (TxResult.failure (TxError.causeValue
          (Cause.fail ⟨.unique_violation, .pgError "23505" "dup"⟩))) ∧
    ∀ d : DatabaseError,
      transactionResult ⟨none, none⟩
          (BodyOutcome.failCause
            (Cause.fail (⟨.unique_violation, .pgError "23505" "dup"⟩ : DatabaseError))
            : BodyOutcome DatabaseError Nat)
        ≠ some (TxResult.failure (TxError.domain d)) := by
  refine ⟨rfl, ?_⟩
  intro d h
  simp [transactionResult, transactionResumes, txCallbackResume, txCallbackPromise,
    causeOriginalError, Cause.isFailure] at h

/-- Claim C8, counterexample: a rejection of the driver transaction
primitive at commit time with a recognized driver error (code 23505)
after a successful body leaves the outer effect succeeding with the
body value; it does not fail with the corresponding typed
`DatabaseError`, because the callback already resumed the outer effect
before the commit attempt. -/
theorem c8_commit_rejection_ignored :
    transactionResult ⟨none, some (JsValue.pgError "23505" "dup")⟩
        (BodyOutcome.success 7 : BodyOutcome DatabaseError Nat)
      = some (TxResult.success 7) ∧
    transactionResult ⟨none, some (JsValue.pgError "23505" "dup")⟩
        (BodyOutcome.success 7 : BodyOutcome DatabaseError Nat)
      ≠ some (TxResult.failure
          (TxError.domain ⟨.unique_violation, .pgError "23505" "dup"⟩)) :=
  ⟨rfl, by decide⟩

/-- Claim C8 as amended: a rejection of the driver transaction
primitive that happens before the callback resumes the outer effect
(at BEGIN time) is classified into the corresponding typed
`DatabaseError` when `matchPgError` recognizes the thrown value and
propagates as a defect carrying the original value otherwise; a
rejection after the callback has resumed (at commit time) is ignored
and the outer effect keeps the body-derived outcome. -/
theorem c8_primitive_rejections_before_resume_classified {ε τ : Type} (v : JsValue)
    (be : BodyOutcome ε τ) (commitErr : Option JsValue) :
    (∀ d : DatabaseError, matchPgError v = some d →
      transactionResult ⟨some v, commitErr⟩ be
        = some (TxResult.failure (TxError.domain d))) ∧
    (matchPgError v = none →
      transactionResult ⟨some v, commitErr⟩ be
        = some (TxResult.defect (TxDefect.rawDefect v))) ∧
    transactionResult ⟨none, commitErr⟩ be = some (txCallbackResume be) := by
  refine ⟨?_, ?_, ?_⟩
  · intro d h
    simp [transactionResult, transactionResumes, txCatchResume, h]
  · intro h
    simp [transactionResult, transactionResumes, txCatchResume, h]
  · cases commitErr <;>
      simp [transactionResult, transactionResumes, txCallbackPromise]

theorem c8_begin_rejection_witness :
    transactionResult (⟨some (JsValue.pgError "08000" "down"), none⟩ : DriverBehavior)
        (BodyOutcome.success 0 : BodyOutcome Unit Nat)
      = some (TxResult.failure
          (TxError.domain ⟨.connection_error, .pgError "08000" "down"⟩)) :=
  (c8_primitive_rejections_before_resume_classified (JsValue.pgError "08000" "down")
      (BodyOutcome.success 0) none).1
    ⟨.connection_error, .pgError "08000" "down"⟩ (by decide)

/-- Claim C9: the secret url influences neither the log trace nor any
surfaced error message.  Two service runs that differ only in the url
produce identical logs and identical connection-loss failures, every
classified error message is derived from the driver error alone, and
the url is consumed at pool construction, where different secrets do
yield different pool configurations. -/
theorem c9_url_noninterference (u₁ u₂ : Redacted) (ssl : Bool) (n : Nat)
    (ev : Option JsValue) :
    (runService ⟨u₁, ssl⟩ n ev).logs = (runService ⟨u₂, ssl⟩ n ev).logs ∧
    (runService ⟨u₁, ssl⟩ n ev).connectionLoss
      = (runService ⟨u₂, ssl⟩ n ev).connectionLoss ∧
    (∀ (v : JsValue) (d : DatabaseError), matchPgError v = some d →
      d.message = errMessage v) ∧
    (u₁ ≠ u₂ → (runService ⟨u₁, ssl⟩ n ev).pool ≠ (runService ⟨u₂, ssl⟩ n ev).pool) := by
  refine ⟨rfl, rfl, ?_, ?_⟩
  · intro v d h
    rw [DatabaseError.message, matchPgError_cause v d h]
  · intro hne hpool
    exact hne (congrArg Redacted.mk (congrArg PoolConfig.connectionString hpool))

theorem c9_url_witness :
    (runService ⟨⟨"postgres-one"⟩, true⟩ 1 none).logs
      = (runService ⟨⟨"postgres-two"⟩, true⟩ 1 none).logs ∧
    (runService ⟨⟨"postgres-one"⟩, true⟩ 1 none).pool
      ≠ (runService ⟨⟨"postgres-two"⟩, true⟩ 1 none).pool :=
  ⟨(c9_url_noninterference ⟨"postgres-one"⟩ ⟨"postgres-two"⟩ true 1 none).1,
   (c9_url_noninterference ⟨"postgres-one"⟩ ⟨"postgres-two"⟩ true 1 none).2.2.2
     (by decide)⟩
